import Mathlib

/-!
Verification of the research-orchestration core of the tavily_deep_research
repository: a shallow embedding of the state model (state_scope.py), the
scoping nodes (research_agent_scope.py) and the top-level orchestrator
(tavily_deep_research_agent.py), with theorems settling the specification
claims about them.
-/

namespace TavilyDeepResearch

/-! ## Character-level primitives for the regex operations of
`parse_success_criteria` (research_agent_scope.py, lines 94-116). -/

/-- Python ASCII whitespace, as matched by regex `\s` and stripped by
`str.strip()`. -/
def pyIsSpace (c : Char) : Bool :=
  c = ' ' || c = '\t' || c = '\n' || c = '\r' || c = '\x0b' || c = '\x0c'

/-- The bullet-marker character class of the findall pattern: `•` or `-`. -/
def isBullet (c : Char) : Bool := c = '•' || c = '-'

/-- Python `str.strip()`: remove leading and trailing whitespace. -/
def pyStrip (l : List Char) : List Char :=
  ((l.dropWhile pyIsSpace).reverse.dropWhile pyIsSpace).reverse

/-- Helper for `re.sub(r"\s+", " ", s)`: each maximal whitespace run becomes a
single space; the flag records whether the previous character was whitespace. -/
def collapseWsAux : Bool → List Char → List Char
  | _, [] => []
  | inWs, c :: rest =>
    if pyIsSpace c then
      if inWs then collapseWsAux true rest else ' ' :: collapseWsAux true rest
    else c :: collapseWsAux false rest

/-- The cleaning of one captured bullet line in `parse_success_criteria`:
`re.sub(r"\s+", " ", line).strip()`. -/
def cleanLine (l : List Char) : List Char := pyStrip (collapseWsAux false l)

/-- Case-insensitive character comparison (regex `IGNORECASE` on the ASCII
pattern literal). -/
def lcEq (a b : Char) : Bool := a.toLower = b.toLower

/-- Whether `s` starts with the pattern literal, case-insensitively. -/
def startsWithCI : List Char → List Char → Bool
  | [], _ => true
  | _ :: _, [] => false
  | p :: ps, c :: cs => lcEq p c && startsWithCI ps cs

/-- `re.search(pat + "(.*)", s, IGNORECASE | DOTALL)` for a nonempty literal
pattern `pat`: the text after the first case-insensitive occurrence of `pat`
(group 1, which under DOTALL runs to the end of the string), or `none` when
the pattern does not occur. -/
def searchAfterCI (pat : List Char) : List Char → Option (List Char)
  | [] => none
  | c :: rest =>
    if startsWithCI pat (c :: rest) then some ((c :: rest).drop pat.length)
    else searchAfterCI pat rest

/-- One attempt to match the tail `\s*(.+)` of the pattern `[•\-]\s*(.+)`,
with `rest` the characters after a bullet marker. The greedy `\s*` backtracks
just enough for `.+` (which cannot cross a newline) to match at least one
character. Returns the capture of `(.+)` and how many characters of `rest`
the match consumed, or `none` when no match is possible here. -/
def tryMatch (rest : List Char) : Option (List Char × Nat) :=
  let ws := rest.takeWhile pyIsSpace
  let tl := rest.dropWhile pyIsSpace
  match tl with
  | t :: ts =>
    -- the maximal whitespace run is followed by a non-whitespace (hence
    -- non-newline) character, so `\s*` keeps it all and `.+` starts at `t`
    let cap := (t :: ts).takeWhile (fun c => c ≠ '\n')
    some (cap, ws.length + cap.length)
  | [] =>
    -- `rest` is all whitespace: backtrack to the last whitespace character
    -- that is not a newline, which `.+` can then consume
    match ws.reverse.dropWhile (fun c => c = '\n') with
    | [] => none
    | d :: ds =>
      let w := (d :: ds).length - 1
      let cap := (ws.drop w).takeWhile (fun c => c ≠ '\n')
      some (cap, w + cap.length)

/-- Fuel-driven scan of `re.findall(r"[•\-]\s*(.+)", s)`: at each position, a
bullet marker starts a match attempt; on success the scan resumes after the
match, on failure (and at non-bullet characters) it advances one character. -/
def findallBulletsGo : Nat → List Char → List (List Char)
  | 0, _ => []
  | _ + 1, [] => []
  | fuel + 1, c :: rest =>
    if isBullet c then
      match tryMatch rest with
      | some (cap, n) => cap :: findallBulletsGo fuel (rest.drop n)
      | none => findallBulletsGo fuel rest
    else findallBulletsGo fuel rest

/-- `re.findall(r"[•\-]\s*(.+)", s)`: the fuel `s.length` always suffices,
since every step consumes at least the character it stands on. -/
def findallBullets (l : List Char) : List (List Char) :=
  findallBulletsGo l.length l

/-! ## Python dicts with string keys, in insertion order
(`success_criteria` is a `Dict[str, bool]`, state_scope.py line 35). -/

/-- A Python `Dict[str, bool]` as its ordered list of entries. -/
abbrev CriteriaDict := List (String × Bool)

/-- `d[k]` lookup: the first entry with key `k` (a real Python dict never has
a duplicate key). -/
def dictLookup (d : CriteriaDict) (k : String) : Option Bool :=
  match d with
  | [] => none
  | p :: rest => if p.1 = k then some p.2 else dictLookup rest k

/-- `k in d`. -/
def dictContains (d : CriteriaDict) (k : String) : Bool :=
  (dictLookup d k).isSome

/-- `d[k] = v`: an existing key keeps its position and gets the new value; a
new key is appended. -/
def dictAssign (d : CriteriaDict) (k : String) (v : Bool) : CriteriaDict :=
  if dictContains d k then d.map (fun p => if p.1 = k then (p.1, v) else p)
  else d ++ [(k, v)]

/-- Python `d1 | d2` — what `operator.or_` does on two dicts, and hence the
langgraph reducer of `success_criteria` (state_scope.py line 35), applied as
`operator.or_(current, update)`. The keys of `d1` come first in their order,
each with `d2`'s value when `d2` also has the key; then the keys of `d2` not
in `d1`, in `d2`'s order. -/
def dictOr (d1 d2 : CriteriaDict) : CriteriaDict :=
  d1.map (fun p => match dictLookup d2 p.1 with | some v => (p.1, v) | none => p)
    ++ d2.filter (fun p => !(dictContains d1 p.1))

/-! ## parse_success_criteria (research_agent_scope.py, lines 94-116). -/

/-- The pattern literal of the section search. -/
def successCriteriaPat : List Char := "Success Criteria".data

/-- The body of the criteria loop: `clean_line = re.sub(r"\s+", " ",
line).strip(); if clean_line: criteria_dict[clean_line] = False`. -/
def addCriterion (d : CriteriaDict) (line : List Char) : CriteriaDict :=
  let clean := cleanLine line
  if clean ≠ [] then dictAssign d (String.mk clean) false else d

/-- `parse_success_criteria` from research_agent_scope.py: the value this node
returns for the `success_criteria` field. An empty brief returns the empty
dict; otherwise the text after the first case-insensitive occurrence of
"Success Criteria" is stripped, every `[•\-]\s*(.+)` capture in it is
whitespace-normalized, and each nonempty result becomes a key mapped to
`false`. -/
def parse_success_criteria (brief : String) : CriteriaDict :=
  if brief = "" then []
  else
    match searchAfterCI successCriteriaPat brief.data with
    | none => []
    | some g1 =>
      let sectionText := pyStrip g1
      let lines := findallBullets sectionText
      lines.foldl addCriterion []

/-- The whitespace-normalized form of a criterion line, as a string key. -/
def normKey (c : String) : String := String.mk (cleanLine c.data)

/-! ## State model (state_scope.py). -/

/-- A langchain message: role and content. `AIMessage` has role "ai",
`HumanMessage` role "human" (a plain string in a messages update is coerced
to a human message by the `add_messages` reducer). -/
structure Msg where
  role : String
  content : String
deriving DecidableEq, Repr

def aiMsg (content : String) : Msg := ⟨"ai", content⟩

def humanMsg (content : String) : Msg := ⟨"human", content⟩

/-- `AgentState` (state_scope.py lines 23-43): messages from `MessagesState`
plus the research-coordination fields. -/
structure AgentState where
  messages : List Msg
  research_brief : Option String
  success_criteria : CriteriaDict
  supervisor_messages : List Msg
  raw_notes : List String
  notes : List String
  final_report : Option String
deriving DecidableEq, Repr

/-- The partial state a node returns: `none` / `[]` components are keys the
returned dict does not contain. -/
structure StateUpdate where
  messages : List Msg
  research_brief : Option String
  success_criteria : Option CriteriaDict
  supervisor_messages : List Msg
  raw_notes : List String
  notes : List String
  final_report : Option String
deriving DecidableEq, Repr

/-- The update that touches nothing. -/
def emptyUpdate : StateUpdate :=
  { messages := [], research_brief := none, success_criteria := none,
    supervisor_messages := [], raw_notes := [], notes := [], final_report := none }

/-- Merging a node's returned update into the run state, per the reducers
declared in state_scope.py: `messages` by `add_messages` (append here, since
no message carries an id), `success_criteria` by `operator.or_` applied as
`current | update`, `supervisor_messages`, `raw_notes` and `notes` by
`operator.add` (append), and the plain optional fields `research_brief` and
`final_report` by overwrite when the update carries them. -/
def applyUpdate (st : AgentState) (u : StateUpdate) : AgentState :=
  { messages := st.messages ++ u.messages
    research_brief :=
      match u.research_brief with | some v => some v | none => st.research_brief
    success_criteria :=
      match u.success_criteria with
      | some d => dictOr st.success_criteria d
      | none => st.success_criteria
    supervisor_messages := st.supervisor_messages ++ u.supervisor_messages
    raw_notes := st.raw_notes ++ u.raw_notes
    notes := st.notes ++ u.notes
    final_report :=
      match u.final_report with | some v => some v | none => st.final_report }

/-- The run state at graph entry: only the user messages are populated. -/
def initState (msgs : List Msg) : AgentState :=
  { messages := msgs, research_brief := none, success_criteria := [],
    supervisor_messages := [], raw_notes := [], notes := [], final_report := none }

/-! ## Structured output schemas (state_scope.py lines 47-74). -/

/-- `ClarifyWithUser`: the structured clarification decision. -/
structure ClarifyWithUser where
  need_clarification : Bool
  question : String
  verification : String
deriving DecidableEq, Repr

/-- `ResearchQuestion`: the structured research brief. -/
structure ResearchQuestion where
  research_brief : String
deriving DecidableEq, Repr

/-! ## The orchestrator graph (tavily_deep_research_agent.py lines 85-103). -/

/-- The nodes of the compiled graph, plus langgraph's START and END. -/
inductive Node
  | START
  | clarify_with_user
  | write_research_brief
  | parse_success_criteria
  | run_researcher_agent
  | final_report_generation
  | END
deriving DecidableEq, BEq, Repr

/-- A langgraph `Command`: where to go and what to merge into the state. -/
structure Command where
  goto : Node
  update : StateUpdate
deriving DecidableEq, Repr

/-- `clarify_with_user` (research_agent_scope.py lines 36-64) as a function of
the structured model response: when clarification is needed, go to END with
the question appended as an AI message; otherwise go to write_research_brief
with the verification appended as an AI message. -/
def clarify_with_user (response : ClarifyWithUser) : Command :=
  if response.need_clarification then
    { goto := Node.END
      update := { emptyUpdate with messages := [aiMsg response.question] } }
  else
    { goto := Node.write_research_brief
      update := { emptyUpdate with messages := [aiMsg response.verification] } }

/-- `write_research_brief` (research_agent_scope.py lines 66-91) as a function
of the structured model response: set the brief and seed the supervisor
conversation with it (followed by a period). -/
def write_research_brief (response : ResearchQuestion) : StateUpdate :=
  { emptyUpdate with
      research_brief := some response.research_brief
      supervisor_messages := [humanMsg (response.research_brief ++ ".")] }

/-- The `parse_success_criteria` node reads `state.get("research_brief", "")`
and returns the extracted criteria as the `success_criteria` update. -/
def parse_success_criteria_node (st : AgentState) : StateUpdate :=
  { emptyUpdate with
      success_criteria := some (parse_success_criteria (st.research_brief.getD "")) }

/-- The dict returned by `researcher_agent.invoke`, with exactly the keys
`run_researcher_agent` reads from it (the researcher subgraph itself is
outside the embedded scope; its output is a parameter of the run). The
Python reads each key with `.get` and a default; a total structure stands
for the dict with the defaults filled in. -/
structure ResearcherOutput where
  raw_notes : List String
  researcher_messages : List Msg
  compressed_research : String
  success_criteria : CriteriaDict
deriving DecidableEq, Repr

/-- The `researcher_input` dict the bridge node builds for
`researcher_agent.invoke` (tavily_deep_research_agent.py lines 41-48). -/
structure ResearcherInput where
  researcher_messages : List Msg
  tool_call_iterations : Nat
  research_topic : String
  compressed_research : String
  raw_notes : List String
  success_criteria : CriteriaDict
deriving DecidableEq, Repr

/-- How `run_researcher_agent` fills `researcher_input` from the state. -/
def run_researcher_agent_input (st : AgentState) : ResearcherInput :=
  { researcher_messages := st.supervisor_messages
    tool_call_iterations := 0
    research_topic := st.research_brief.getD ""
    compressed_research := ""
    raw_notes := []
    success_criteria := st.success_criteria }

/-- `run_researcher_agent` (tavily_deep_research_agent.py lines 34-57): the
bridge node's returned update. Note that it sets `final_report` to the
researcher's `compressed_research`. -/
def run_researcher_agent (st : AgentState) (research_output : ResearcherOutput) :
    StateUpdate :=
  { emptyUpdate with
      raw_notes := research_output.raw_notes
      supervisor_messages := research_output.researcher_messages
      final_report := some research_output.compressed_research
      success_criteria := some research_output.success_criteria }

/-! ## Final report generation (tavily_deep_research_agent.py lines 59-81)
and its prompt (prompts.py, `final_report_generation_prompt`). -/

/-- The template text before the `research_brief` placeholder. -/
def finalReportPromptPart1 : String :=
  "Based on all the research conducted, create a comprehensive, well-structured answer to the overall research brief:\n<Research Brief>\n"

/-- The template text between the `research_brief` and `date` placeholders. -/
def finalReportPromptPart2 : String :=
  "\n</Research Brief>\n\nCRITICAL: Make sure the answer is written in the same language as the human messages!\nFor example, if the user's messages are in English, then MAKE SURE you write your response in English. If the user's messages are in Chinese, then MAKE SURE you write your entire response in Chinese.\nThis is critical. The user will only understand the answer if it is written in the same language as their input message.\n\nToday's date is "

/-- The template text between the `date` and `findings` placeholders. -/
def finalReportPromptPart3 : String :=
  ".\n\nHere are the findings from the research that you conducted:\n<Findings>\n"

/-- The template text after the `findings` placeholder (the long report-writing
and citation guidance that follows is constant prose with no further
placeholder, elided here: the core treats prompt text as opaque). -/
def finalReportPromptPart4 : String :=
  "\n</Findings>\n\nPlease create a detailed answer to the overall research brief"

/-- `final_report_generation_prompt.format(research_brief=..., findings=...,
date=...)`: the placeholders appear in the template in the order
research_brief, date, findings. -/
def final_report_generation_prompt (research_brief findings date : String) : String :=
  finalReportPromptPart1 ++ research_brief ++ finalReportPromptPart2 ++ date
    ++ finalReportPromptPart3 ++ findings ++ finalReportPromptPart4

/-- The prompt `final_report_generation` builds: the brief from the state (""
when unset) and `"\n".join(state.get("raw_notes", []))` as the findings. -/
def final_report_generation_input (st : AgentState) (date : String) : String :=
  final_report_generation_prompt (st.research_brief.getD "")
    (String.intercalate "\n" st.raw_notes) date

/-- The message list passed to the writer model's single `ainvoke` call. -/
def final_report_generation_call (st : AgentState) (date : String) : List Msg :=
  [humanMsg (final_report_generation_input st date)]

/-- `final_report_generation` (tavily_deep_research_agent.py lines 59-81): the
node builds the prompt from the state, passes it to the writer model in one
call, and returns the update carrying the model's answer. The pair is (the
input of the single model call, the returned update). -/
def final_report_generation (st : AgentState) (date : String)
    (final_report : Msg) : List Msg × StateUpdate :=
  (final_report_generation_call st date,
   { emptyUpdate with
       final_report := some final_report.content
       messages := [humanMsg ("Here is the final report: " ++ final_report.content)] })

/-! ## The wired graph and a whole run. -/

/-- The transition out of each node: the static edges added in
tavily_deep_research_agent.py lines 95-100, and for `clarify_with_user` the
`goto` of its returned Command (its static edge is commented out in the
source; the Command routes to END or to write_research_brief). -/
def nextNode (r : ClarifyWithUser) : Node → Option Node
  | Node.START => some Node.clarify_with_user
  | Node.clarify_with_user => some (clarify_with_user r).goto
  | Node.write_research_brief => some Node.parse_success_criteria
  | Node.parse_success_criteria => some Node.run_researcher_agent
  | Node.run_researcher_agent => some Node.final_report_generation
  | Node.final_report_generation => some Node.END
  | Node.END => none

/-- Follow `nextNode` for at most `fuel` steps, collecting the visited nodes. -/
def traceFrom (r : ClarifyWithUser) : Nat → Node → List Node
  | 0, n => [n]
  | fuel + 1, n =>
    match nextNode r n with
    | none => [n]
    | some n2 => n :: traceFrom r fuel n2

/-- The node sequence of one run of the compiled graph (the graph has seven
nodes and no cycle, so fuel 10 is never exhausted). -/
def runTrace (r : ClarifyWithUser) : List Node := traceFrom r 10 Node.START

/-- The early-termination path: clarification needed. -/
def clarifyPath : List Node :=
  [Node.START, Node.clarify_with_user, Node.END]

/-- The full pipeline path: no clarification needed. -/
def fullPath : List Node :=
  [Node.START, Node.clarify_with_user, Node.write_research_brief,
   Node.parse_success_criteria, Node.run_researcher_agent,
   Node.final_report_generation, Node.END]

/-- Everything a run consumes from the outside: the two structured scoping
responses, the researcher subgraph's output, the writer model's answer, and
the formatted current date. -/
structure RunInputs where
  clarifyResponse : ClarifyWithUser
  briefResponse : ResearchQuestion
  researcherOutput : ResearcherOutput
  writerOutput : Msg
  date : String
deriving DecidableEq, Repr

/-- The update each node contributes, given the state it observes on entry.
START and END are not nodes of the builder and contribute nothing. -/
def execNode (inp : RunInputs) (st : AgentState) : Node → StateUpdate
  | Node.clarify_with_user => (clarify_with_user inp.clarifyResponse).update
  | Node.write_research_brief => write_research_brief inp.briefResponse
  | Node.parse_success_criteria => parse_success_criteria_node st
  | Node.run_researcher_agent => run_researcher_agent st inp.researcherOutput
  | Node.final_report_generation =>
      (final_report_generation st inp.date inp.writerOutput).2
  | _ => emptyUpdate

/-- One executed node: its name, the state it entered with, and the update it
returned. -/
structure NodeExec where
  node : Node
  entry : AgentState
  update : StateUpdate
deriving DecidableEq, Repr

/-- Execute the nodes of a trace in order, threading the state and recording
each step. -/
def runNodes (inp : RunInputs) : List Node → AgentState → AgentState × List NodeExec
  | [], st => (st, [])
  | n :: rest, st =>
    let u := execNode inp st n
    let next := runNodes inp rest (applyUpdate st u)
    (next.1, ⟨n, st, u⟩ :: next.2)

/-- One whole run of the compiled graph on the user's messages. -/
def runPipeline (msgs : List Msg) (inp : RunInputs) :
    AgentState × List NodeExec :=
  runNodes inp (runTrace inp.clarifyResponse) (initState msgs)

/-! ## Model invocation with structured output (research_agent_scope.py lines
43-52 and 73-82). -/

/-- The clarification node seen with its model capability: `invocations n` is
what the n-th structured-output invocation would return (`Except.error` is a
schema-validation failure raised by the structured-output model). The node
performs exactly one invocation — it reads only `invocations 0` — and wraps
it in no handler, so an error is the node's own outcome. -/
def clarify_with_user_node (invocations : Nat → Except String ClarifyWithUser) :
    Except String Command :=
  (invocations 0).map clarify_with_user

/-- `write_research_brief` seen the same way: one unguarded structured-output
invocation. -/
def write_research_brief_node (invocations : Nat → Except String ResearchQuestion) :
    Except String StateUpdate :=
  (invocations 0).map write_research_brief

/-! ## Canonical well-formed criteria sections, and sample run data. -/

/-- One well-formed bulleted criterion line: marker, one space, the content. -/
def bulletLine (c : String) : List Char := '-' :: ' ' :: c.data

/-- A well-formed "Success Criteria" section body after stripping: the
criterion lines joined by single newlines. -/
def bulletBody : List String → List Char
  | [] => []
  | [c] => bulletLine c
  | c :: c2 :: rest => bulletLine c ++ '\n' :: bulletBody (c2 :: rest)

/-- A well-formed criterion content: nonempty, starts with a non-whitespace
character, and contains no newline. -/
def goodContent (c : String) : Bool :=
  match c.data with
  | [] => false
  | ch :: _ => !pyIsSpace ch && c.data.all (fun x => x ≠ '\n')

/-- A concrete clarification decision asking a question. -/
def sampleClarifyYes : ClarifyWithUser := ⟨true, "Which city do you mean?", ""⟩

/-- A concrete entry state. -/
def sampleState : AgentState := initState [humanMsg "plan a trip"]

/-- Concrete inputs for a full run that proceeds past clarification. -/
def sampleRunInputs : RunInputs :=
  { clarifyResponse := ⟨false, "", "I will start the research now."⟩
    briefResponse := ⟨"Research topic X."⟩
    researcherOutput :=
      { raw_notes := ["raw note one"]
        researcher_messages := [aiMsg "done"]
        compressed_research := "compressed findings"
        success_criteria := [("covers X", true)] }
    writerOutput := aiMsg "# Final Report"
    date := "Sun Oct 12, 2025" }

/-! ## Helper lemmas. -/

lemma dictLookup_append (d1 d2 : CriteriaDict) (k : String) :
    dictLookup (d1 ++ d2) k =
      match dictLookup d1 k with
      | some v => some v
      | none => dictLookup d2 k := by
  induction d1 with
  | nil => simp [dictLookup]
  | cons p rest ih =>
    by_cases h : p.1 = k
    · simp [dictLookup, h]
    · simp [dictLookup, h, ih]

lemma dictLookup_mapOverride (d1 d2 : CriteriaDict) (k : String) :
    dictLookup
      (d1.map (fun p =>
        match dictLookup d2 p.1 with | some v => (p.1, v) | none => p)) k =
      match dictLookup d1 k with
      | none => none
      | some w =>
        match dictLookup d2 k with | some v => some v | none => some w := by
  induction d1 with
  | nil => simp [dictLookup]
  | cons p rest ih =>
    cases hd : dictLookup d2 p.1 with
    | none =>
      by_cases h : p.1 = k
      · subst h; simp [dictLookup, hd]
      · simp [dictLookup, h, ih, hd]
    | some v =>
      by_cases h : p.1 = k
      · subst h; simp [dictLookup, hd]
      · simp [dictLookup, h, ih, hd]

lemma dictLookup_filterNotIn (d1 d2 : CriteriaDict) (k : String)
    (h : dictContains d1 k = false) :
    dictLookup (d2.filter (fun p => !(dictContains d1 p.1))) k =
      dictLookup d2 k := by
  induction d2 with
  | nil => simp
  | cons q rest ih =>
    by_cases hq : q.1 = k
    · have hk : dictContains d1 q.1 = false := by rw [hq]; exact h
      simp [List.filter_cons, hk, dictLookup, hq, h]
    · cases hcq : dictContains d1 q.1 <;>
        simp [List.filter_cons, hcq, dictLookup, hq, ih]

lemma mem_dictAssign_false {d : CriteriaDict} {k : String} {q : String × Bool}
    (hd : ∀ p ∈ d, p.2 = false) (hq : q ∈ dictAssign d k false) :
    q.2 = false := by
  unfold dictAssign at hq
  by_cases h : dictContains d k
  · rw [if_pos h] at hq
    rcases List.mem_map.mp hq with ⟨p, hp, hpq⟩
    subst hpq
    by_cases hpk : p.1 = k
    · rw [if_pos hpk]
    · rw [if_neg hpk]; exact hd p hp
  · rw [if_neg h] at hq
    rcases List.mem_append.mp hq with hq | hq
    · exact hd q hq
    · rw [List.mem_singleton] at hq; subst hq; rfl

lemma mem_foldl_addCriterion (lines : List (List Char)) (d : CriteriaDict)
    (hd : ∀ p ∈ d, p.2 = false) :
    ∀ q ∈ lines.foldl addCriterion d, q.2 = false := by
  induction lines generalizing d with
  | nil => simpa using hd
  | cons l rest ih =>
    intro q hq
    rw [List.foldl_cons] at hq
    refine ih (addCriterion d l) ?_ q hq
    intro p hp
    simp only [addCriterion] at hp
    split at hp
    · exact mem_dictAssign_false hd hp
    · exact hd p hp

lemma takeWhile_append_all {p : Char → Bool} (l m : List Char)
    (h : ∀ x ∈ l, p x = true) :
    (l ++ m).takeWhile p = l ++ m.takeWhile p := by
  induction l with
  | nil => simp
  | cons c rest ih =>
    have hc : p c = true := h c (by simp)
    rw [List.cons_append, List.takeWhile_cons, if_pos hc, List.cons_append,
      ih (fun x hx => h x (by simp [hx]))]

lemma dropWhile_append_all {p : Char → Bool} (l m : List Char)
    (h : ∀ x ∈ l, p x = true) :
    (l ++ m).dropWhile p = m.dropWhile p := by
  induction l with
  | nil => simp
  | cons c rest ih =>
    have hc : p c = true := h c (by simp)
    rw [List.cons_append, List.dropWhile_cons, if_pos hc,
      ih (fun x hx => h x (by simp [hx]))]

lemma tryMatch_good (ch : Char) (ctail tail : List Char)
    (hch : pyIsSpace ch = false)
    (hnl : ∀ x ∈ ch :: ctail, x ≠ '\n')
    (htail : tail = [] ∨ ∃ t, tail = '\n' :: t) :
    tryMatch (' ' :: ((ch :: ctail) ++ tail)) =
      some (ch :: ctail, (ch :: ctail).length + 1) := by
  have hsp : pyIsSpace ' ' = true := by decide
  have htw : (' ' :: ((ch :: ctail) ++ tail)).takeWhile pyIsSpace = [' '] := by
    rw [List.takeWhile_cons, if_pos hsp, List.cons_append, List.takeWhile_cons,
      if_neg (by simp [hch])]
  have hdw : (' ' :: ((ch :: ctail) ++ tail)).dropWhile pyIsSpace =
      ch :: (ctail ++ tail) := by
    rw [List.dropWhile_cons, if_pos hsp, List.cons_append, List.dropWhile_cons,
      if_neg (by simp [hch])]
  have hcap : (ch :: (ctail ++ tail)).takeWhile (fun c => c ≠ '\n') =
      ch :: ctail := by
    have h1 : ∀ x ∈ ch :: ctail, (fun c : Char => decide (c ≠ '\n')) x = true := by
      intro x hx
      simp [hnl x hx]
    have h2 := takeWhile_append_all (p := fun c : Char => decide (c ≠ '\n'))
      (ch :: ctail) tail h1
    rw [List.cons_append] at h2
    rw [h2]
    rcases htail with rfl | ⟨t, rfl⟩
    · simp
    · rw [List.takeWhile_cons, if_neg (by simp), List.append_nil]
  simp only [tryMatch, htw, hdw, hcap]
  simp [Nat.add_comm]

lemma findallBulletsGo_congr :
    ∀ (f1 f2 : Nat) (l : List Char), l.length ≤ f1 → l.length ≤ f2 →
      findallBulletsGo f1 l = findallBulletsGo f2 l := by
  intro f1
  induction f1 with
  | zero =>
    intro f2 l h1 _
    have hl : l = [] := List.eq_nil_of_length_eq_zero (Nat.le_zero.mp h1)
    subst hl
    cases f2 <;> rfl
  | succ f ih =>
    intro f2 l h1 h2
    cases l with
    | nil => cases f2 <;> rfl
    | cons c rest =>
      cases f2 with
      | zero => exact absurd h2 (by simp)
      | succ g =>
        have hr1 : rest.length ≤ f := by simpa using h1
        have hr2 : rest.length ≤ g := by simpa using h2
        simp only [findallBulletsGo]
        by_cases hb : isBullet c
        · rw [if_pos hb, if_pos hb]
          cases hm : tryMatch rest with
          | none =>
            simp only [hm]
            exact ih g rest hr1 hr2
          | some capn =>
            obtain ⟨cap, n⟩ := capn
            simp only [hm]
            have hd : (rest.drop n).length ≤ rest.length := by
              rw [List.length_drop]; exact Nat.sub_le _ _
            rw [ih g (rest.drop n) (le_trans hd hr1) (le_trans hd hr2)]
        · rw [if_neg hb, if_neg hb]
          exact ih g rest hr1 hr2

lemma findallBullets_nil : findallBullets [] = [] := rfl

lemma findallBullets_cons_not (c : Char) (rest : List Char)
    (h : isBullet c = false) :
    findallBullets (c :: rest) = findallBullets rest := by
  simp only [findallBullets, List.length_cons, findallBulletsGo, h]
  rfl

lemma findallBullets_cons_match {c : Char} {rest cap : List Char} {n : Nat}
    (hb : isBullet c = true) (hm : tryMatch rest = some (cap, n)) :
    findallBullets (c :: rest) = cap :: findallBullets (rest.drop n) := by
  have h1 : findallBullets (c :: rest) =
      cap :: findallBulletsGo rest.length (rest.drop n) := by
    simp only [findallBullets, List.length_cons, findallBulletsGo, hb, if_pos, hm]
  rw [h1]
  have hd : (rest.drop n).length ≤ rest.length := by
    rw [List.length_drop]; exact Nat.sub_le _ _
  rw [findallBulletsGo_congr rest.length (rest.drop n).length (rest.drop n) hd
    le_rfl]
  rfl

lemma goodContent_data {c : String} (h : goodContent c = true) :
    ∃ ch ctail, c.data = ch :: ctail ∧ pyIsSpace ch = false ∧
      ∀ x ∈ ch :: ctail, x ≠ '\n' := by
  unfold goodContent at h
  cases hc : c.data with
  | nil => rw [hc] at h; simp at h
  | cons ch ctail =>
    rw [hc] at h
    simp only [Bool.and_eq_true, Bool.not_eq_true', List.all_eq_true,
      decide_eq_true_eq] at h
    exact ⟨ch, ctail, rfl, h.1, h.2⟩

lemma findall_bulletBody :
    ∀ cs : List String, (∀ c ∈ cs, goodContent c = true) →
      findallBullets (bulletBody cs) = cs.map String.data := by
  intro cs
  induction cs with
  | nil => intro _; rfl
  | cons c cs' ih =>
    intro h
    obtain ⟨ch, ctail, hdata, hch, hnl⟩ := goodContent_data (h c (by simp))
    have hb : isBullet '-' = true := by decide
    cases cs' with
    | nil =>
      have hshape : bulletBody [c] = '-' :: (' ' :: ((ch :: ctail) ++ [])) := by
        simp [bulletBody, bulletLine, hdata]
      rw [hshape,
        findallBullets_cons_match hb (tryMatch_good ch ctail [] hch hnl (Or.inl rfl)),
        List.drop_succ_cons, List.drop_left]
      simp [hdata, findallBullets_nil]
    | cons c2 rest' =>
      have hshape : bulletBody (c :: c2 :: rest') =
          '-' :: (' ' :: ((ch :: ctail) ++ ('\n' :: bulletBody (c2 :: rest')))) := by
        simp [bulletBody, bulletLine, hdata]
      rw [hshape,
        findallBullets_cons_match hb
          (tryMatch_good ch ctail ('\n' :: bulletBody (c2 :: rest')) hch hnl
            (Or.inr ⟨_, rfl⟩)),
        List.drop_succ_cons, List.drop_left,
        findallBullets_cons_not '\n' _ (by decide),
        ih (fun x hx => h x (by simp [hx]))]
      simp [hdata]

lemma pyStrip_cons_ne_nil (ch : Char) (l : List Char)
    (hch : pyIsSpace ch = false) : pyStrip (ch :: l) ≠ [] := by
  unfold pyStrip
  rw [List.dropWhile_cons, if_neg (by simp [hch])]
  intro hcontra
  rw [List.reverse_eq_nil_iff] at hcontra
  have hmem : ch ∈ (ch :: l).reverse := List.mem_reverse.mpr (by simp)
  have := List.dropWhile_eq_nil_iff.mp hcontra ch hmem
  rw [hch] at this
  exact Bool.noConfusion this

lemma cleanLine_cons_ne_nil (ch : Char) (ctail : List Char)
    (hch : pyIsSpace ch = false) : cleanLine (ch :: ctail) ≠ [] := by
  unfold cleanLine
  rw [show collapseWsAux false (ch :: ctail) = ch :: collapseWsAux false ctail
    from by simp [collapseWsAux, hch]]
  exact pyStrip_cons_ne_nil ch _ hch

lemma dictContains_append (d1 d2 : CriteriaDict) (k : String) :
    dictContains (d1 ++ d2) k = (dictContains d1 k || dictContains d2 k) := by
  rw [dictContains, dictLookup_append, dictContains, dictContains]
  cases h1 : dictLookup d1 k <;> simp

lemma dictAssign_not_contains (d : CriteriaDict) (k : String) (v : Bool)
    (h : dictContains d k = false) :
    dictAssign d k v = d ++ [(k, v)] := by
  unfold dictAssign
  rw [if_neg (by simp [h])]

lemma foldl_addCriterion (lines : List (List Char)) (d : CriteriaDict)
    (hne : ∀ l ∈ lines, cleanLine l ≠ [])
    (hnotin : ∀ l ∈ lines, dictContains d (String.mk (cleanLine l)) = false)
    (hnd : (lines.map (fun l => String.mk (cleanLine l))).Nodup) :
    lines.foldl addCriterion d =
      d ++ lines.map (fun l => (String.mk (cleanLine l), false)) := by
  induction lines generalizing d with
  | nil => simp
  | cons l rest ih =>
    rw [List.foldl_cons]
    have hstep : addCriterion d l = d ++ [(String.mk (cleanLine l), false)] := by
      simp only [addCriterion]
      rw [if_pos (hne l (by simp))]
      exact dictAssign_not_contains _ _ _ (hnotin l (by simp))
    have hhead := (List.nodup_cons.mp hnd).1
    have hne' : ∀ l' ∈ rest, cleanLine l' ≠ [] :=
      fun l' hl' => hne l' (List.mem_cons_of_mem _ hl')
    have hnotin' : ∀ l' ∈ rest,
        dictContains (d ++ [(String.mk (cleanLine l), false)])
          (String.mk (cleanLine l')) = false := by
      intro l' hl'
      rw [dictContains_append]
      have h1 := hnotin l' (List.mem_cons_of_mem _ hl')
      have hneq : ¬ String.mk (cleanLine l) = String.mk (cleanLine l') := by
        intro heq
        refine hhead ?_
        show String.mk (cleanLine l) ∈ _
        rw [heq]
        exact List.mem_map_of_mem _ hl'
      have h2 : dictContains [(String.mk (cleanLine l), false)]
          (String.mk (cleanLine l')) = false := by
        simp [dictContains, dictLookup, hneq]
      rw [h1, h2]
      rfl
    rw [hstep, ih _ hne' hnotin' (List.nodup_cons.mp hnd).2]
    simp

lemma parse_values_false (brief : String) :
    ∀ q ∈ parse_success_criteria brief, q.2 = false := by
  unfold parse_success_criteria
  split
  · simp
  · split
    · simp
    · exact mem_foldl_addCriterion _ [] (by simp)

/-! ## The claims. -/

/-- C1: the spec states that merging two success_criteria contributions is a
union with the booleans of shared keys combined by logical OR and no existing
entry overwritten. The reducer `operator.or_` on dicts is Python dict union
`current | update`, whose right-hand values win: merging an entry already
true with a later false one yields false, not true. -/
theorem C1_counterexample :
    dictLookup (dictOr [("criterion", true)] [("criterion", false)]) "criterion" =
        some false ∧
    (true || false) = true := by
  decide

/-- C1 (amended): the merge is a key union — every key of either side is
present afterwards — and for a key present in both, the merged value is the
later (update) contribution's value, a last-writer-wins overwrite rather
than a logical OR. -/
theorem C1_theorem (d1 d2 : CriteriaDict) (k : String) :
    dictLookup (dictOr d1 d2) k =
      (match dictLookup d2 k with
       | some v => some v
       | none => dictLookup d1 k) ∧
    dictContains (dictOr d1 d2) k = (dictContains d1 k || dictContains d2 k) := by
  have main : dictLookup (dictOr d1 d2) k =
      (match dictLookup d2 k with
       | some v => some v
       | none => dictLookup d1 k) := by
    unfold dictOr
    rw [dictLookup_append, dictLookup_mapOverride]
    cases h1 : dictLookup d1 k with
    | some w => cases h2 : dictLookup d2 k <;> simp [h2]
    | none =>
      rw [dictLookup_filterNotIn d1 d2 k (by simp [dictContains, h1])]
      cases h2 : dictLookup d2 k <;> simp [h2]
  refine ⟨main, ?_⟩
  rw [dictContains, main, dictContains, dictContains]
  cases h1 : dictLookup d1 k <;> cases h2 : dictLookup d2 k <;> simp [h1, h2]

/-- C3: for every nonempty brief whose "Success Criteria" section — the text
after the first case-insensitive occurrence of the heading, stripped — is
exactly a well-formed block of k bullet-marker-prefixed criterion lines
(each line's content nonempty, newline-free, starting non-whitespace, with
pairwise distinct normalized forms), the extractor returns exactly k keys,
in order, each key the corresponding line with internal whitespace
normalized, each mapped to false (pending). -/
theorem C3_theorem (brief : String) (cs : List String)
    (hne : brief ≠ "")
    (hfind : (searchAfterCI successCriteriaPat brief.data).map pyStrip =
      some (bulletBody cs))
    (hgood : cs.all goodContent = true)
    (hnd : (cs.map normKey).Nodup) :
    parse_success_criteria brief = cs.map (fun c => (normKey c, false)) ∧
    (parse_success_criteria brief).length = cs.length := by
  have hgood' : ∀ c ∈ cs, goodContent c = true := List.all_eq_true.mp hgood
  obtain ⟨g1, hg1, hstrip⟩ : ∃ g1,
      searchAfterCI successCriteriaPat brief.data = some g1 ∧
      pyStrip g1 = bulletBody cs := by
    cases hs : searchAfterCI successCriteriaPat brief.data with
    | none => rw [hs] at hfind; exact absurd hfind (by simp)
    | some g =>
      rw [hs] at hfind
      simp at hfind
      exact ⟨g, rfl, hfind⟩
  have hmain : parse_success_criteria brief =
      cs.map (fun c => (normKey c, false)) := by
    unfold parse_success_criteria
    rw [if_neg hne, hg1]
    show (findallBullets (pyStrip g1)).foldl addCriterion [] = _
    rw [hstrip, findall_bulletBody cs hgood']
    have hne2 : ∀ l ∈ cs.map String.data, cleanLine l ≠ [] := by
      intro l hl
      rcases List.mem_map.mp hl with ⟨c, hc, rfl⟩
      obtain ⟨ch, ctail, hdata, hch, _⟩ := goodContent_data (hgood' c hc)
      rw [hdata]
      exact cleanLine_cons_ne_nil ch ctail hch
    have hnotin2 : ∀ l ∈ cs.map String.data,
        dictContains [] (String.mk (cleanLine l)) = false := fun _ _ => rfl
    have hnd2 :
        ((cs.map String.data).map (fun l => String.mk (cleanLine l))).Nodup := by
      rw [List.map_map]
      exact hnd
    rw [foldl_addCriterion _ [] hne2 hnotin2 hnd2, List.nil_append, List.map_map]
    rfl
  exact ⟨hmain, by rw [hmain, List.length_map]⟩

/-- C3 witness: a concrete brief with a two-item criteria section. -/
theorem C3_witness :
    ("Find facts.\n\nSuccess Criteria\n- Cites official sources\n- Includes dates" : String) ≠ "" ∧
    (searchAfterCI successCriteriaPat
        "Find facts.\n\nSuccess Criteria\n- Cites official sources\n- Includes dates".data).map
        pyStrip =
      some (bulletBody ["Cites official sources", "Includes dates"]) ∧
    (["Cites official sources", "Includes dates"] : List String).all goodContent = true ∧
    ((["Cites official sources", "Includes dates"] : List String).map normKey).Nodup ∧
    (parse_success_criteria
        "Find facts.\n\nSuccess Criteria\n- Cites official sources\n- Includes dates" =
        (["Cites official sources", "Includes dates"] : List String).map
          (fun c => (normKey c, false)) ∧
      (parse_success_criteria
          "Find facts.\n\nSuccess Criteria\n- Cites official sources\n- Includes dates").length =
        (["Cites official sources", "Includes dates"] : List String).length) :=
  ⟨by decide, by decide, by decide, by decide,
    C3_theorem "Find facts.\n\nSuccess Criteria\n- Cites official sources\n- Includes dates"
      ["Cites official sources", "Includes dates"]
      (by decide) (by decide) (by decide) (by decide)⟩

/-- C4: for every structured clarification decision, the clarify step appends
exactly one AI message — the question when clarification is needed, the
verification otherwise — and routes to END (leaving research_brief and
final_report untouched, with no update to them) in the first case and to
write_research_brief in the second. -/
theorem C4_theorem (r : ClarifyWithUser) (st : AgentState) :
    (clarify_with_user r).update.messages =
      [aiMsg (if r.need_clarification then r.question else r.verification)] ∧
    (clarify_with_user r).update.messages.length = 1 ∧
    (applyUpdate st (clarify_with_user r).update).messages =
      st.messages ++
        [aiMsg (if r.need_clarification then r.question else r.verification)] ∧
    (if r.need_clarification then
      (clarify_with_user r).goto = Node.END ∧
      (clarify_with_user r).update.research_brief = none ∧
      (clarify_with_user r).update.final_report = none ∧
      (applyUpdate st (clarify_with_user r).update).research_brief =
        st.research_brief ∧
      (applyUpdate st (clarify_with_user r).update).final_report = st.final_report
    else (clarify_with_user r).goto = Node.write_research_brief) := by
  cases hr : r.need_clarification <;>
    simp [clarify_with_user, hr, applyUpdate, emptyUpdate, aiMsg]

/-- C5: a brief with no "Success Criteria" section — the section search finds
nothing — yields the empty mapping, and so does the empty brief; the
extractor is a total function, so no error is raised. -/
theorem C5_theorem (brief : String)
    (h : searchAfterCI successCriteriaPat brief.data = none) :
    parse_success_criteria brief = [] ∧ parse_success_criteria "" = [] := by
  constructor
  · unfold parse_success_criteria
    split
    · rfl
    · rw [h]
  · rfl

/-- C5 witness: a concrete brief without the section. -/
theorem C5_witness :
    searchAfterCI successCriteriaPat "general research brief".data = none ∧
    (parse_success_criteria "general research brief" = [] ∧
      parse_success_criteria "" = []) :=
  ⟨by decide, C5_theorem "general research brief" (by decide)⟩

/-- C6: the extractor is a pure function of the brief, so a second run on the
same brief returns the same mapping — in particular the same key set — and
every value of a fresh run is false (pending). -/
theorem C6_theorem (brief : String) :
    (parse_success_criteria brief).map Prod.fst =
      (parse_success_criteria brief).map Prod.fst ∧
    (parse_success_criteria brief).all (fun p => !p.2) = true := by
  refine ⟨rfl, ?_⟩
  rw [List.all_eq_true]
  intro p hp
  have h := parse_values_false brief p hp
  simp [h]

/-- C8: the report synthesizer performs a single model invocation (one message
in one call) whose input embeds the research brief and the concatenation of
all raw_notes entries joined by newlines in their stored (append) order —
the notes list is passed to the join as-is, with no reordering, filtering or
deduplication. -/
theorem C8_theorem (st : AgentState) (date : String) :
    (final_report_generation st date (aiMsg "")).1 =
      [humanMsg (final_report_generation_input st date)] ∧
    (final_report_generation_call st date).length = 1 ∧
    final_report_generation_input st date =
      finalReportPromptPart1 ++ st.research_brief.getD "" ++ finalReportPromptPart2
        ++ date ++ finalReportPromptPart3 ++ String.intercalate "\n" st.raw_notes
        ++ finalReportPromptPart4 := by
  exact ⟨rfl, rfl, rfl⟩

/-- C9: a schema-violating structured-output response during clarification or
brief generation is the node's own outcome — the error propagates unchanged,
nothing is committed — and each node consults only its first model
invocation (no retry: its outcome equals that of a capability that only ever
answers the first call). -/
theorem C9_theorem (e : String)
    (fc : Nat → Except String ClarifyWithUser)
    (fw : Nat → Except String ResearchQuestion)
    (hc : fc 0 = Except.error e) (hw : fw 0 = Except.error e) :
    clarify_with_user_node fc = Except.error e ∧
    write_research_brief_node fw = Except.error e ∧
    clarify_with_user_node fc = clarify_with_user_node (fun _ => fc 0) ∧
    write_research_brief_node fw = write_research_brief_node (fun _ => fw 0) := by
  refine ⟨?_, ?_, rfl, rfl⟩
  · rw [clarify_with_user_node, hc]; rfl
  · rw [write_research_brief_node, hw]; rfl

/-- C9 witness: a concrete schema-violation outcome. -/
theorem C9_witness :
    (fun _ : Nat => (Except.error "schema violation" : Except String ClarifyWithUser)) 0 =
      Except.error "schema violation" ∧
    (fun _ : Nat => (Except.error "schema violation" : Except String ResearchQuestion)) 0 =
      Except.error "schema violation" ∧
    (clarify_with_user_node (fun _ => Except.error "schema violation") =
        Except.error "schema violation" ∧
      write_research_brief_node (fun _ => Except.error "schema violation") =
        Except.error "schema violation" ∧
      clarify_with_user_node (fun _ => Except.error "schema violation") =
        clarify_with_user_node (fun _ =>
          (fun _ : Nat => (Except.error "schema violation" : Except String ClarifyWithUser)) 0) ∧
      write_research_brief_node (fun _ => Except.error "schema violation") =
        write_research_brief_node (fun _ =>
          (fun _ : Nat => (Except.error "schema violation" : Except String ResearchQuestion)) 0)) :=
  ⟨rfl, rfl,
    C9_theorem "schema violation" (fun _ => Except.error "schema violation")
      (fun _ => Except.error "schema violation") rfl rfl⟩

/-- C10: on the clarification-needed branch, merging the clarify step's update
into any state changes only the conversation messages (by appending the
question): research_brief, success_criteria, supervisor_messages, raw_notes,
notes and final_report are unchanged. -/
theorem C10_theorem (r : ClarifyWithUser) (st : AgentState)
    (h : r.need_clarification = true) :
    (applyUpdate st (clarify_with_user r).update).research_brief =
        st.research_brief ∧
    (applyUpdate st (clarify_with_user r).update).success_criteria =
        st.success_criteria ∧
    (applyUpdate st (clarify_with_user r).update).supervisor_messages =
        st.supervisor_messages ∧
    (applyUpdate st (clarify_with_user r).update).raw_notes = st.raw_notes ∧
    (applyUpdate st (clarify_with_user r).update).notes = st.notes ∧
    (applyUpdate st (clarify_with_user r).update).final_report =
        st.final_report ∧
    (applyUpdate st (clarify_with_user r).update).messages =
        st.messages ++ [aiMsg r.question] := by
  simp [clarify_with_user, h, applyUpdate, emptyUpdate]

/-- C10 witness: the frame condition at a concrete state and decision. -/
theorem C10_witness :
    sampleClarifyYes.need_clarification = true ∧
    ((applyUpdate sampleState (clarify_with_user sampleClarifyYes).update).research_brief =
        sampleState.research_brief ∧
      (applyUpdate sampleState (clarify_with_user sampleClarifyYes).update).success_criteria =
        sampleState.success_criteria ∧
      (applyUpdate sampleState (clarify_with_user sampleClarifyYes).update).supervisor_messages =
        sampleState.supervisor_messages ∧
      (applyUpdate sampleState (clarify_with_user sampleClarifyYes).update).raw_notes =
        sampleState.raw_notes ∧
      (applyUpdate sampleState (clarify_with_user sampleClarifyYes).update).notes =
        sampleState.notes ∧
      (applyUpdate sampleState (clarify_with_user sampleClarifyYes).update).final_report =
        sampleState.final_report ∧
      (applyUpdate sampleState (clarify_with_user sampleClarifyYes).update).messages =
        sampleState.messages ++ [aiMsg sampleClarifyYes.question]) :=
  ⟨rfl, C10_theorem sampleClarifyYes sampleState rfl⟩

/-- C7: every run visits the nodes in the strict order clarify → (end |
brief) → criteria extraction → research → synthesis → end — the early path
or the full path, with the clarify fork the only branch — the trace never
repeats a node (no return to an earlier stage), write_research_brief comes
strictly before run_researcher_agent on the full path, and on a proceeding
run the state entering the research node already carries the generated
research_brief. -/
theorem C7_theorem (r : ClarifyWithUser) (msgs : List Msg) (inp : RunInputs) :
    runTrace r = (if r.need_clarification then clarifyPath else fullPath) ∧
    (runTrace r).Nodup ∧
    fullPath.findIdx
        (fun n => match n with | Node.write_research_brief => true | _ => false) <
      fullPath.findIdx
        (fun n => match n with | Node.run_researcher_agent => true | _ => false) ∧
    (if inp.clarifyResponse.need_clarification then True
     else
       ((runPipeline msgs inp).2.filter
           (fun e =>
             match e.node with | Node.run_researcher_agent => true | _ => false)).map
           (fun e => e.entry.research_brief) =
         [some inp.briefResponse.research_brief]) := by
  refine ⟨?_, ?_, ?_, ?_⟩
  · cases hr : r.need_clarification <;>
      simp [runTrace, traceFrom, nextNode, clarify_with_user, hr, clarifyPath,
        fullPath]
  · cases hr : r.need_clarification
    · have ht : runTrace r = fullPath := by
        simp [runTrace, traceFrom, nextNode, clarify_with_user, hr, fullPath]
      rw [ht]; decide
    · have ht : runTrace r = clarifyPath := by
        simp [runTrace, traceFrom, nextNode, clarify_with_user, hr, clarifyPath]
      rw [ht]; decide
  · decide
  · cases hneed : inp.clarifyResponse.need_clarification
    · simp [hneed, runPipeline, runTrace, traceFrom, nextNode, clarify_with_user,
        runNodes, execNode, applyUpdate, initState, emptyUpdate,
        write_research_brief, parse_success_criteria_node, run_researcher_agent,
        final_report_generation, List.filter]
    · simp [hneed]

/-- C2: the spec states that final_report is set exactly once, by the report
synthesizer. On a run that proceeds past clarification, two nodes return an
update carrying final_report: run_researcher_agent (which sets it to the
researcher's compressed_research) and then final_report_generation — so it
is set twice, and the first setter is not the synthesizer. -/
theorem C2_counterexample :
    ((runPipeline [humanMsg "Research topic X"] sampleRunInputs).2.filter
        (fun e => e.update.final_report.isSome)).map (fun e => e.node) =
      [Node.run_researcher_agent, Node.final_report_generation] ∧
    ((runPipeline [humanMsg "Research topic X"] sampleRunInputs).2.filter
        (fun e => e.update.final_report.isSome)).length = 2 ∧
    Node.run_researcher_agent ≠ Node.final_report_generation := by
  decide

/-- C2 (amended): on every run that proceeds past clarification, final_report
is written exactly twice — first by the research bridge node
run_researcher_agent, then by the report synthesizer
final_report_generation, whose value overwrites the first and is the run's
final one. -/
theorem C2_theorem (msgs : List Msg) (inp : RunInputs)
    (h : inp.clarifyResponse.need_clarification = false) :
    ((runPipeline msgs inp).2.filter (fun e => e.update.final_report.isSome)).map
        (fun e => e.node) =
      [Node.run_researcher_agent, Node.final_report_generation] ∧
    (runPipeline msgs inp).1.final_report = some inp.writerOutput.content := by
  constructor <;>
    simp [runPipeline, runTrace, traceFrom, nextNode, clarify_with_user, h,
      runNodes, execNode, applyUpdate, initState, emptyUpdate,
      write_research_brief, parse_success_criteria_node, run_researcher_agent,
      final_report_generation, List.filter]

/-- C2 witness: the amended statement at a concrete proceeding run. -/
theorem C2_witness :
    sampleRunInputs.clarifyResponse.need_clarification = false ∧
    (((runPipeline [humanMsg "Research topic X"] sampleRunInputs).2.filter
         (fun e => e.update.final_report.isSome)).map (fun e => e.node) =
       [Node.run_researcher_agent, Node.final_report_generation] ∧
     (runPipeline [humanMsg "Research topic X"] sampleRunInputs).1.final_report =
       some sampleRunInputs.writerOutput.content) :=
  ⟨rfl, C2_theorem [humanMsg "Research topic X"] sampleRunInputs rfl⟩

end TavilyDeepResearch
